import Mathlib

/-!
Shallow embedding of the Streamlit admin dashboard in `streamlit_app/main.py`
(an internal dashboard for a news-curation pipeline backed by a Supabase
relational store).  The items and sources tables are modelled as lists of
records, each Supabase call as a pure state transformer on that database
value, and the outbound Dify HTTP call as a function of an explicit
environment (secrets present or not, HTTP outcome).  `hashlib.sha256` is
modelled by a full executable SHA-256 over byte lists (`Nat` values < 256),
and Python single-character `str.replace` by a character map.
-/

namespace NewsAdmin

/-- 2 ^ 32, the word modulus of SHA-256 arithmetic. -/
def w32 : Nat := 4294967296

/-- Right rotation of a 32-bit word (value < 2 ^ 32) by `n` places. -/
def rotr32 (n x : Nat) : Nat := ((x >>> n) ||| (x <<< (32 - n))) % w32

/-- SHA-256 small sigma 0: rotr 7 xor rotr 18 xor shr 3. -/
def ssig0 (x : Nat) : Nat := rotr32 7 x ^^^ rotr32 18 x ^^^ (x >>> 3)

/-- SHA-256 small sigma 1: rotr 17 xor rotr 19 xor shr 10. -/
def ssig1 (x : Nat) : Nat := rotr32 17 x ^^^ rotr32 19 x ^^^ (x >>> 10)

/-- SHA-256 big Sigma 0: rotr 2 xor rotr 13 xor rotr 22. -/
def bsig0 (x : Nat) : Nat := rotr32 2 x ^^^ rotr32 13 x ^^^ rotr32 22 x

/-- SHA-256 big Sigma 1: rotr 6 xor rotr 11 xor rotr 25. -/
def bsig1 (x : Nat) : Nat := rotr32 6 x ^^^ rotr32 11 x ^^^ rotr32 25 x

/-- SHA-256 choice function; complement is xor with the 32-bit mask. -/
def chFun (x y z : Nat) : Nat := (x &&& y) ^^^ ((x ^^^ 0xFFFFFFFF) &&& z)

/-- SHA-256 majority function. -/
def majFun (x y z : Nat) : Nat := (x &&& y) ^^^ (x &&& z) ^^^ (y &&& z)

/-- The 64 SHA-256 round constants of FIPS 180-4, in decimal. -/
def sha256K : List Nat :=
  [1116352408, 1899447441, 3049323471, 3921009573, 961987163, 1508970993,
   2453635748, 2870763221, 3624381080, 310598401, 607225278, 1426881987,
   1925078388, 2162078206, 2614888103, 3248222580, 3835390401, 4022224774,
   264347078, 604807628, 770255983, 1249150122, 1555081692, 1996064986,
   2554220882, 2821834349, 2952996808, 3210313671, 3336571891, 3584528711,
   113926993, 338241895, 666307205, 773529912, 1294757372, 1396182291,
   1695183700, 1986661051, 2177026350, 2456956037, 2730485921, 2820302411,
   3259730800, 3345764771, 3516065817, 3600352804, 4094571909, 275423344,
   430227734, 506948616, 659060556, 883997877, 958139571, 1322822218,
   1537002063, 1747873779, 1955562222, 2024104815, 2227730452, 2361852424,
   2428436474, 2756734187, 3204031479, 3329325298]

/-- The SHA-256 initial hash value of FIPS 180-4, in decimal. -/
def sha256H0 : List Nat :=
  [1779033703, 3144134277, 1013904242, 2773480762,
   1359893119, 2600822924, 528734635, 1541459225]

/-- Big-endian bytes (most significant first) of `n`, `k` bytes wide. -/
def beBytes (k n : Nat) : List Nat :=
  (List.range k).map fun i => (n >>> (8 * (k - 1 - i))) % 256

/-- SHA-256 padding: append 0x80, zero bytes to 56 mod 64, then the 64-bit
big-endian bit length of the original message. -/
def padMsg (msg : List Nat) : List Nat :=
  let L := msg.length
  let z := (120 - ((L + 1) % 64)) % 64
  msg ++ [0x80] ++ List.replicate z 0 ++ beBytes 8 (8 * L)

/-- Split a byte list into successive 64-byte chunks.  The fuel argument
(structural recursion, so the kernel can evaluate it) is an upper bound on
the number of chunks; the list length always suffices since each chunk
consumes at least one byte. -/
def chunksAux : Nat → List Nat → List (List Nat)
  | 0, _ => []
  | fuel + 1, l => if l = [] then [] else l.take 64 :: chunksAux fuel (l.drop 64)

/-- Split a byte list into successive 64-byte chunks. -/
def chunks64 (l : List Nat) : List (List Nat) := chunksAux l.length l

/-- Combine big-endian bytes into a word. -/
def beWord (bytes : List Nat) : Nat := bytes.foldl (fun acc b => acc * 256 + b) 0

/-- One message-schedule extension step: append
`ssig1 w[n-2] + w[n-7] + ssig0 w[n-15] + w[n-16]` modulo 2 ^ 32. -/
def extendW (w : List Nat) : List Nat :=
  let n := w.length
  w ++ [(ssig1 (w.getD (n - 2) 0) + w.getD (n - 7) 0 +
         ssig0 (w.getD (n - 15) 0) + w.getD (n - 16) 0) % w32]

/-- Iterate the schedule extension `k` times. -/
def buildW : List Nat → Nat → List Nat
  | w, 0 => w
  | w, k + 1 => buildW (extendW w) k

/-- One SHA-256 compression round on state `[a, b, c, d, e, f, g, h]`,
where `kw` is the round constant plus the schedule word, mod 2 ^ 32. -/
def sha256Round (st : List Nat) (kw : Nat) : List Nat :=
  match st with
  | [a, b, c, d, e, f, g, h] =>
    let t1 := (h + bsig1 e + chFun e f g + kw) % w32
    let t2 := (bsig0 a + majFun a b c) % w32
    [(t1 + t2) % w32, a, b, c, (d + t1) % w32, e, f, g]
  | other => other

/-- Process one 64-byte chunk: build the 64-word schedule, run 64 rounds,
add the result into the running hash, all mod 2 ^ 32. -/
def processChunk (hs chunk : List Nat) : List Nat :=
  let ws0 := (List.range 16).map fun i => beWord ((chunk.drop (4 * i)).take 4)
  let ws := buildW ws0 48
  let kws := List.zipWith (fun k w => (k + w) % w32) sha256K ws
  let st := kws.foldl sha256Round hs
  List.zipWith (fun x y => (x + y) % w32) hs st

/-- SHA-256 of a byte list, as the 8 final 32-bit words. -/
def sha256Words (msg : List Nat) : List Nat :=
  (chunks64 (padMsg msg)).foldl processChunk sha256H0

/-- Lowercase hex digit for a value below 16 (as `hexdigest` emits). -/
def hexDigit (n : Nat) : Char :=
  if n < 10 then Char.ofNat (48 + n) else Char.ofNat (87 + n)

/-- Lowercase hex rendering of one 32-bit word, 8 digits. -/
def hexWord (w : Nat) : List Char :=
  (List.range 8).map fun i => hexDigit ((w >>> (4 * (7 - i))) % 16)

/-- SHA-256 lowercase hex digest of a byte list, the model of Python
`hashlib.sha256(bytes).hexdigest()`. -/
def sha256hex (msg : List Nat) : String :=
  String.mk (((sha256Words msg).map hexWord).flatten)

/-- UTF-8 encoding of one Unicode code point (1 to 4 bytes). -/
def utf8EncChar (c : Char) : List Nat :=
  let n := c.toNat
  if n < 0x80 then [n]
  else if n < 0x800 then
    [0xC0 ||| (n >>> 6), 0x80 ||| (n &&& 0x3F)]
  else if n < 0x10000 then
    [0xE0 ||| (n >>> 12), 0x80 ||| ((n >>> 6) &&& 0x3F), 0x80 ||| (n &&& 0x3F)]
  else
    [0xF0 ||| (n >>> 18), 0x80 ||| ((n >>> 12) &&& 0x3F),
     0x80 ||| ((n >>> 6) &&& 0x3F), 0x80 ||| (n &&& 0x3F)]

/-- UTF-8 bytes of a string, the model of Python `str.encode("utf-8")`. -/
def utf8Bytes (s : String) : List Nat :=
  (s.data.map utf8EncChar).flatten

/-- Model of `hashlib.sha256(url.encode("utf-8")).hexdigest()`
(main.py line 139 and line 390). -/
def url_hash_of (url : String) : String := sha256hex (utf8Bytes url)

/-- SHA-256 test vector guarding the model against the reference
implementation: the digest of the empty message. -/
theorem sha256hex_nil :
    sha256hex [] =
      "e3b0c44298fc1c149afbf4c8996fb92427ae41e4649b934ca495991b7852b855" := by
  decide

/-- The space character, written by code point to keep literals unambiguous. -/
def spaceChar : Char := Char.ofNat 32

/-- One step of Python `str.replace` restricted to a single-character pattern
and single-character replacement: on a single character it is this map. -/
def rep1 (p r c : Char) : Char := if c = p then r else c

/-- Python `str.replace(p, r)` for one-character `p` and `r`, acting on the
character list of the string: replace every occurrence. -/
def replaceChar (p r : Char) (l : List Char) : List Char := l.map (rep1 p r)

/-- Model of Python `str.lower` on the alphabet the dashboard cares about:
ASCII letters and the nine uppercase Polish diacritics.  (Full Unicode
lowercasing agrees with this on every character the slug logic inspects.) -/
def pyLower (c : Char) : Char :=
  if c = 'Ą' then 'ą' else if c = 'Ę' then 'ę' else if c = 'Ś' then 'ś'
  else if c = 'Ć' then 'ć' else if c = 'Ż' then 'ż' else if c = 'Ź' then 'ź'
  else if c = 'Ł' then 'ł' else if c = 'Ó' then 'ó'
  else if c = 'Ń' then 'ń' else c.toLower

/-- Character list of the slug computed by `add_source` (main.py line 105):
`name.lower().replace(" ", "-").replace("ą", "a")...replace("ń", "n")`,
in source order (innermost applied first). -/
def city_slug_chars (name : String) : List Char :=
  replaceChar 'ń' 'n' (replaceChar 'ó' 'o' (replaceChar 'ł' 'l'
    (replaceChar 'ź' 'z' (replaceChar 'ż' 'z' (replaceChar 'ć' 'c'
      (replaceChar 'ś' 's' (replaceChar 'ę' 'e' (replaceChar 'ą' 'a'
        (replaceChar spaceChar '-' (name.data.map pyLower))))))))))

/-- The slug string stored by `add_source`. -/
def city_slug_of (name : String) : String := String.mk (city_slug_chars name)

/-- The characters the spec says the slug is free of: the space and the nine
Polish diacritics replaced at main.py line 105. -/
def slugBadChars : List Char :=
  [spaceChar, 'ą', 'ę', 'ś', 'ć', 'ż', 'ź', 'ł', 'ó', 'ń']

/-- A row of the Supabase `items` table, with the columns the dashboard
reads or writes.  Ids are modelled as naturals handed out by the store. -/
structure ItemRow where
  id : Nat
  source_id : Nat
  original_url : String
  url_hash : String
  status : String
  error_message : Option String
  retry_count : Nat
  title_original : String
deriving DecidableEq, Repr

/-- A row of the Supabase `sources` table. -/
structure SourceRow where
  id : Nat
  name : String
  city_slug : String
  rss_url : String
  wp_api_endpoint : String
  wp_username : String
  wp_app_password : String
  is_active : Bool
deriving DecidableEq, Repr

/-- The remote relational store: both tables plus the id counters the store
uses to assign primary keys on insert. -/
structure DB where
  items : List ItemRow
  sources : List SourceRow
  next_item_id : Nat
  next_source_id : Nat
deriving DecidableEq, Repr

/-- Model of `add_source` (main.py lines 103-114): insert a sources row whose
`city_slug` is auto-generated from `name`; `is_active` takes the schema
default (true) since the insert does not set it. -/
def add_source (db : DB) (name rss wp_endpoint wp_user wp_pass : String) : DB :=
  { db with
    sources := db.sources ++ [{
      id := db.next_source_id,
      name := name,
      city_slug := city_slug_of name,
      rss_url := rss,
      wp_api_endpoint := wp_endpoint,
      wp_username := wp_user,
      wp_app_password := wp_pass,
      is_active := true }],
    next_source_id := db.next_source_id + 1 }

/-- Model of `delete_source` (main.py lines 116-117): delete the rows whose
id matches. -/
def delete_source (db : DB) (source_id : Nat) : DB :=
  { db with sources := db.sources.filter fun s => s.id != source_id }

/-- Model of `update_source_active` (main.py lines 119-120): set `is_active`
on the rows whose id matches. -/
def update_source_active (db : DB) (source_id : Nat) (is_active : Bool) : DB :=
  { db with sources := db.sources.map fun s =>
      if s.id = source_id then { s with is_active := is_active } else s }

/-- Model of `retry_item` (main.py lines 127-132): reset status to PENDING,
clear the error message, and zero the retry count on the matching rows. -/
def retry_item (db : DB) (item_id : Nat) : DB :=
  { db with items := db.items.map fun r =>
      if r.id = item_id then
        { r with status := "PENDING", error_message := none, retry_count := 0 }
      else r }

/-- Model of `delete_item` (main.py lines 134-135). -/
def delete_item (db : DB) (item_id : Nat) : DB :=
  { db with items := db.items.filter fun r => r.id != item_id }

/-- Model of `add_item` (main.py lines 137-146): insert an items row with the
SHA-256 hash of the url and status PENDING; `error_message` and
`retry_count` take the schema defaults since the insert does not set them. -/
def add_item (db : DB) (source_id : Nat) (url : String) : DB :=
  { db with
    items := db.items ++ [{
      id := db.next_item_id,
      source_id := source_id,
      original_url := url,
      url_hash := url_hash_of url,
      status := "PENDING",
      error_message := none,
      retry_count := 0,
      title_original := "Manual Add" }],
    next_item_id := db.next_item_id + 1 }

/-- Environment of one `trigger_dify_workflow` call: whether the [dify]
secrets are in the secrets manager, and the outcome of the POST
(`none` models `requests.post` raising, `some c` a response with status
code `c`). -/
structure DifyEnv where
  secrets_present : Bool
  http_result : Option Nat
deriving DecidableEq, Repr

/-- Model of `trigger_dify_workflow` (main.py lines 149-186).  Returns the
boolean result together with the number of HTTP POST requests issued:
missing [dify] secrets return false before any request; otherwise exactly
one POST happens, and the call returns true exactly on status code 200,
false on any other code or on an exception. -/
def trigger_dify_workflow (env : DifyEnv) : Bool × Nat :=
  if env.secrets_present then
    match env.http_result with
    | none => (false, 1)
    | some code => (code == 200, 1)
  else (false, 0)

/-- The status update issued by the queue page after a successful trigger
(main.py line 327). -/
def set_item_status (db : DB) (item_id : Nat) (new_status : String) : DB :=
  { db with items := db.items.map fun r =>
      if r.id = item_id then { r with status := new_status } else r }

/-- Model of the Run Workflow button handler (main.py lines 319-330): the
SUPABASE secrets are read first (a KeyError lands in the surrounding except
block and issues no update); then `trigger_dify_workflow` runs, and only a
true result leads to the PROCESSING update. -/
def run_workflow_handler (db : DB) (sb_secrets_present : Bool) (env : DifyEnv)
    (sel_id : Nat) : DB :=
  if sb_secrets_present then
    if (trigger_dify_workflow env).1 then set_item_status db sel_id "PROCESSING"
    else db
  else db

/-- One step of the RSS fetch loop (main.py lines 387-394): hash the link,
count existing items with that hash, and insert only when the count is 0.
The accumulator carries the store plus `count_new`. -/
def fetch_step (source_id : Nat) (acc : DB × Nat) (link : String) : DB × Nat :=
  let h := url_hash_of link
  let dup := (acc.1.items.filter fun r => r.url_hash == h).length
  if dup = 0 then (add_item acc.1 source_id link, acc.2 + 1) else acc

/-- The Fetch Articles from RSS handler for one source (main.py lines
381-398): iterate over the 10 latest feed entries. -/
def fetch_articles (db : DB) (source_id : Nat) (entries : List String) :
    DB × Nat :=
  (entries.take 10).foldl (fetch_step source_id) (db, 0)

/-- Substring containment, the model of pandas `str.contains("FAILED")`
(the pattern has no regex metacharacters, so it is plain containment). -/
def containsSub (s pat : String) : Bool :=
  (List.range (s.data.length + 1)).any fun i => pat.data.isPrefixOf (s.data.drop i)

/-- The dashboard metrics as `show_dashboard` computes them (main.py lines
213-229), including the explicit zero branches taken when a dataframe is
empty (which is also what `safe_query` returns on a database error). -/
def show_dashboard_metrics (items : List ItemRow) (sources : List SourceRow) :
    Nat × Nat × Nat × Nat :=
  let counts :=
    if items.isEmpty then (0, 0, 0)
    else ((items.filter fun r => r.status == "PUBLISHED").length,
          (items.filter fun r => containsSub r.status "FAILED").length,
          (items.filter fun r => r.status == "PENDING").length)
  let active_src :=
    if sources.isEmpty then 0 else (sources.filter fun s => s.is_active).length
  (counts.1, counts.2.1, counts.2.2, active_src)

/-- Modelled from the spec sentence of C10: the four metrics as plain counts
over the tables, with no special empty-table branch. -/
def dashboard_metrics_spec (items : List ItemRow) (sources : List SourceRow) :
    Nat × Nat × Nat × Nat :=
  ((items.filter fun r => r.status == "PUBLISHED").length,
   (items.filter fun r => containsSub r.status "FAILED").length,
   (items.filter fun r => r.status == "PENDING").length,
   (sources.filter fun s => s.is_active).length)

/-- The status enumeration offered by the queue filter (main.py line 254). -/
def status_opts : List String :=
  ["PENDING", "PROCESSING", "PUBLISHED", "FAILED", "ERROR"]

/-- The store-mutating operations the dashboard can issue, each carrying the
inputs the corresponding handler consumes. -/
inductive AppOp where
  | retry (item_id : Nat)
  | removeItem (item_id : Nat)
  | addItem (source_id : Nat) (url : String)
  | runWorkflow (sb_secrets_present : Bool) (env : DifyEnv) (item_id : Nat)
  | fetchRss (source_id : Nat) (entries : List String)
  | addSource (name rss wp_endpoint wp_user wp_pass : String)
  | removeSource (source_id : Nat)
  | setSourceActive (source_id : Nat) (is_active : Bool)

/-- Interpretation of one dashboard operation on the store. -/
def applyOp (db : DB) : AppOp → DB
  | .retry i => retry_item db i
  | .removeItem i => delete_item db i
  | .addItem s u => add_item db s u
  | .runWorkflow sb env i => run_workflow_handler db sb env i
  | .fetchRss s es => (fetch_articles db s es).1
  | .addSource n r e u p => add_source db n r e u p
  | .removeSource s => delete_source db s
  | .setSourceActive s b => update_source_active db s b

/-- Every item status lies in the queue status enumeration. -/
def StatusOk (db : DB) : Prop := ∀ r ∈ db.items, r.status ∈ status_opts

instance (db : DB) : Decidable (StatusOk db) := by
  unfold StatusOk; infer_instance

/-- The url hashes currently stored in the items table, in row order. -/
def itemHashes (db : DB) : List String := db.items.map ItemRow.url_hash

/-- Fixture: an items row in a failed state. -/
def wItem : ItemRow :=
  { id := 1, source_id := 2, original_url := "http://x/a", url_hash := "h1",
    status := "FAILED", error_message := some "boom", retry_count := 3,
    title_original := "t" }

/-- Fixture: a store holding the single failed item. -/
def wDB : DB :=
  { items := [wItem], sources := [], next_item_id := 2, next_source_id := 1 }

/-- Fixture: an inactive source with id 1. -/
def wSourceA : SourceRow :=
  { id := 1, name := "A", city_slug := "a", rss_url := "r",
    wp_api_endpoint := "e", wp_username := "u", wp_app_password := "p",
    is_active := false }

/-- Fixture: an active source with id 2. -/
def wSourceB : SourceRow :=
  { id := 2, name := "B", city_slug := "b", rss_url := "r2",
    wp_api_endpoint := "e2", wp_username := "u2", wp_app_password := "p2",
    is_active := true }

/-- Fixture: a store with two sources and no items. -/
def wDB2 : DB :=
  { items := [], sources := [wSourceA, wSourceB], next_item_id := 0,
    next_source_id := 3 }

/-- Fixture: the row `add_source` inserts into `wDB2` for a Polish name. -/
def wNewSource : SourceRow :=
  { id := 3, name := "Łódź Ząb", city_slug := city_slug_of "Łódź Ząb",
    rss_url := "r", wp_api_endpoint := "e", wp_username := "u",
    wp_app_password := "p", is_active := true }

lemma rep1_ne_self {p r : Char} (h : r ≠ p) (c : Char) : rep1 p r c ≠ p := by
  unfold rep1
  split
  · exact h
  · assumption

lemma notMem_replaceChar_self {p r : Char} (h : r ≠ p) (l : List Char) :
    p ∉ replaceChar p r l := by
  intro hmem
  obtain ⟨c, _, hc⟩ := List.mem_map.1 hmem
  exact rep1_ne_self h c hc

lemma notMem_replaceChar {p r b : Char} (hr : r ≠ b) {l : List Char}
    (hl : b ∉ l) : b ∉ replaceChar p r l := by
  intro hmem
  obtain ⟨c, hcl, hc⟩ := List.mem_map.1 hmem
  unfold rep1 at hc
  split at hc
  · exact hr hc
  · exact hl (hc ▸ hcl)

lemma bad_notMem_slug (name : String) :
    ∀ b ∈ slugBadChars, b ∉ city_slug_chars name := by
  intro b hb
  simp only [slugBadChars, List.mem_cons, List.not_mem_nil, or_false] at hb
  unfold city_slug_chars
  rcases hb with rfl | rfl | rfl | rfl | rfl | rfl | rfl | rfl | rfl | rfl <;>
    repeat first
      | exact notMem_replaceChar_self (by decide) _
      | apply notMem_replaceChar (by decide)

lemma city_slug_data (name : String) :
    (city_slug_of name).data = city_slug_chars name := rfl

/-- C1: for every item id, `retry_item` sets the matching row's status to
PENDING, clears its error message to null, and zeroes its retry count,
leaving its other fields intact; rows with a different id are untouched,
and every row of the result carrying the given id has exactly those
defaults. -/
theorem retry_item_resets_defaults (db : DB) (item_id : Nat) :
    (∀ r ∈ db.items,
       (r.id = item_id →
          { r with status := "PENDING", error_message := none,
                   retry_count := 0 } ∈ (retry_item db item_id).items) ∧
       (r.id ≠ item_id → r ∈ (retry_item db item_id).items)) ∧
    (∀ r ∈ (retry_item db item_id).items, r.id = item_id →
       r.status = "PENDING" ∧ r.error_message = none ∧ r.retry_count = 0) := by
  constructor
  · intro r hr
    constructor
    · intro hid
      exact List.mem_map.2 ⟨r, hr, by simp [hid]⟩
    · intro hne
      exact List.mem_map.2 ⟨r, hr, by simp [hne]⟩
  · intro r hr hid
    obtain ⟨x, hx, hfx⟩ := List.mem_map.1 hr
    by_cases hxid : x.id = item_id
    · rw [if_pos hxid] at hfx
      subst hfx
      exact ⟨rfl, rfl, rfl⟩
    · rw [if_neg hxid] at hfx
      subst hfx
      exact absurd hid hxid

/-- Witness for C1 at a concrete store: retrying the failed item with id 1
puts the reset row in the table, and every row with id 1 afterwards has the
default status, error, and retry count. -/
theorem retry_item_resets_defaults_w :
    (wItem ∈ wDB.items ∧ wItem.id = 1) ∧
    ({ wItem with status := "PENDING", error_message := none,
                  retry_count := 0 } ∈ (retry_item wDB 1).items) := by
  refine ⟨⟨by decide, by decide⟩, ?_⟩
  exact ((retry_item_resets_defaults wDB 1).1 wItem (by decide)).1 (by decide)

/-- C3: the status reset is idempotent: applying `retry_item` twice with the
same id leaves the store exactly as applying it once. -/
theorem retry_item_idempotent (db : DB) (item_id : Nat) :
    retry_item (retry_item db item_id) item_id = retry_item db item_id := by
  unfold retry_item
  simp only [List.map_map]
  congr 1
  apply List.map_congr_left
  intro r _
  by_cases h : r.id = item_id <;> simp [Function.comp, h]

/-- C5: `add_source` stores a row whose `city_slug` is generated from the
name alone, and the generated slug contains no space and none of the nine
Polish diacritic letters; every other row of the result was already in the
table. -/
theorem add_source_slug (db : DB) (name rss wp_endpoint wp_user wp_pass : String) :
    ∀ s ∈ (add_source db name rss wp_endpoint wp_user wp_pass).sources,
      s ∈ db.sources ∨
      (s.name = name ∧ s.city_slug = city_slug_of name ∧
       ∀ b ∈ slugBadChars, b ∉ s.city_slug.data) := by
  intro s hs
  unfold add_source at hs
  simp only [List.mem_append, List.mem_singleton] at hs
  rcases hs with hs | rfl
  · exact Or.inl hs
  · refine Or.inr ⟨rfl, rfl, ?_⟩
    intro b hb
    rw [city_slug_data]
    exact bad_notMem_slug name b hb

/-- Witness for C5: registering a source named with Polish diacritics and a
space stores a slug that contains neither the letter ł nor a space. -/
theorem add_source_slug_w :
    wNewSource ∈ (add_source wDB2 "Łódź Ząb" "r" "e" "u" "p").sources ∧
    'ł' ∉ wNewSource.city_slug.data ∧
    spaceChar ∉ wNewSource.city_slug.data := by
  have hmem : wNewSource ∈ (add_source wDB2 "Łódź Ząb" "r" "e" "u" "p").sources := by
    decide
  have h := add_source_slug wDB2 "Łódź Ząb" "r" "e" "u" "p" wNewSource hmem
  rcases h with h | ⟨-, -, h3⟩
  · exact absurd h (by decide)
  · exact ⟨hmem, h3 'ł' (by decide), h3 spaceChar (by decide)⟩

lemma statusOk_add_item {db : DB} (h : StatusOk db) (sid : Nat) (url : String) :
    StatusOk (add_item db sid url) := by
  intro r hr
  unfold add_item at hr
  simp only [List.mem_append, List.mem_singleton] at hr
  rcases hr with hr | rfl
  · exact h r hr
  · simp [status_opts]

lemma statusOk_retry {db : DB} (h : StatusOk db) (i : Nat) :
    StatusOk (retry_item db i) := by
  intro r hr
  obtain ⟨x, hx, hfx⟩ := List.mem_map.1 hr
  by_cases hid : x.id = i
  · rw [if_pos hid] at hfx
    subst hfx
    simp [status_opts]
  · rw [if_neg hid] at hfx
    exact hfx ▸ h x hx

lemma statusOk_delete_item {db : DB} (h : StatusOk db) (i : Nat) :
    StatusOk (delete_item db i) := by
  intro r hr
  exact h r (List.mem_of_mem_filter hr)

lemma statusOk_set_item_status {db : DB} (h : StatusOk db) (i : Nat)
    {s : String} (hs : s ∈ status_opts) : StatusOk (set_item_status db i s) := by
  intro r hr
  obtain ⟨x, hx, hfx⟩ := List.mem_map.1 hr
  by_cases hid : x.id = i
  · rw [if_pos hid] at hfx
    subst hfx
    exact hs
  · rw [if_neg hid] at hfx
    exact hfx ▸ h x hx

lemma statusOk_fetch_go (sid : Nat) (l : List String) :
    ∀ (db : DB) (n : Nat), StatusOk db →
      StatusOk ((l.foldl (fetch_step sid) (db, n)).1) := by
  induction l with
  | nil => exact fun db n h => h
  | cons link tl ih =>
    intro db n h
    simp only [List.foldl_cons]
    unfold fetch_step
    dsimp only
    split
    · exact ih _ _ (statusOk_add_item h sid link)
    · exact ih _ _ h

/-- C2: every status the dashboard itself writes into the items table lies in
the fixed enumeration (PENDING from add/retry, PROCESSING from the queue
trigger handler): each dashboard operation preserves the invariant that all
stored statuses belong to `status_opts`. -/
theorem applyOp_status_enum (db : DB) (op : AppOp) (h : StatusOk db) :
    StatusOk (applyOp db op) := by
  cases op with
  | retry i => exact statusOk_retry h i
  | removeItem i => exact statusOk_delete_item h i
  | addItem sid url => exact statusOk_add_item h sid url
  | runWorkflow sb env i =>
    show StatusOk (run_workflow_handler db sb env i)
    unfold run_workflow_handler
    split
    · split
      · exact statusOk_set_item_status h i (by simp [status_opts])
      · exact h
    · exact h
  | fetchRss sid entries => exact statusOk_fetch_go sid (entries.take 10) db 0 h
  | addSource n r e u p => exact h
  | removeSource s => exact h
  | setSourceActive s b => exact h

/-- Witness for C2: a store whose single item is FAILED satisfies the
enumeration invariant, and still does after a retry. -/
theorem applyOp_status_enum_w :
    StatusOk wDB ∧ StatusOk (applyOp wDB (AppOp.retry 1)) :=
  ⟨by decide, applyOp_status_enum wDB (AppOp.retry 1) (by decide)⟩

/-- C4: the Run Workflow handler issues the PROCESSING update exactly when
`trigger_dify_workflow` returned true (and the SUPABASE secrets were
readable); on a false trigger result the store is returned unchanged. -/
theorem run_workflow_updates_iff (db : DB) (sb : Bool) (env : DifyEnv)
    (sel_id : Nat) :
    ((trigger_dify_workflow env).1 = false →
       run_workflow_handler db sb env sel_id = db) ∧
    (sb = true → (trigger_dify_workflow env).1 = true →
       run_workflow_handler db sb env sel_id =
         set_item_status db sel_id "PROCESSING") := by
  constructor
  · intro hf
    simp [run_workflow_handler, hf]
  · intro hsb ht
    simp [run_workflow_handler, hsb, ht]

/-- Witness for C4: with the [dify] secrets missing the trigger reports
false and the handler leaves the concrete store untouched; with secrets
present and a 200 response it issues the PROCESSING update. -/
theorem run_workflow_updates_iff_w :
    (trigger_dify_workflow ⟨false, none⟩).1 = false ∧
    run_workflow_handler wDB true ⟨false, none⟩ 1 = wDB ∧
    run_workflow_handler wDB true ⟨true, some 200⟩ 1 =
      set_item_status wDB 1 "PROCESSING" :=
  ⟨by decide,
   (run_workflow_updates_iff wDB true ⟨false, none⟩ 1).1 (by decide),
   (run_workflow_updates_iff wDB true ⟨true, some 200⟩ 1).2 rfl (by decide)⟩

/-- C7: `trigger_dify_workflow` returns true exactly when the secrets are
present and the POST answered 200; it returns false (it never raises, being
total) on missing [dify] secrets, on a raised request exception, and on any
non-200 status code. -/
theorem trigger_dify_workflow_result (env : DifyEnv) :
    ((trigger_dify_workflow env).1 = true ↔
       env.secrets_present = true ∧ env.http_result = some 200) ∧
    (env.secrets_present = false → (trigger_dify_workflow env).1 = false) ∧
    (env.http_result = none → (trigger_dify_workflow env).1 = false) ∧
    (∀ c, env.http_result = some c → c ≠ 200 →
       (trigger_dify_workflow env).1 = false) := by
  obtain ⟨sp, hr⟩ := env
  cases sp <;> cases hr <;> simp [trigger_dify_workflow]

/-- Witness for C7: a 404 response with secrets present yields false, and a
200 response yields true, at concrete environments. -/
theorem trigger_dify_workflow_result_w :
    (trigger_dify_workflow ⟨true, some 404⟩).1 = false ∧
    (trigger_dify_workflow ⟨true, some 200⟩).1 = true :=
  ⟨(trigger_dify_workflow_result ⟨true, some 404⟩).2.2.2 404 rfl (by decide),
   (trigger_dify_workflow_result ⟨true, some 200⟩).1.2 ⟨rfl, rfl⟩⟩

/-- C8: each `trigger_dify_workflow` invocation performs at most one POST:
exactly one when the [dify] secrets are present, none when they are
missing, whatever the outcome. -/
theorem trigger_dify_workflow_one_call (env : DifyEnv) :
    (trigger_dify_workflow env).2 ≤ 1 ∧
    (env.secrets_present = true → (trigger_dify_workflow env).2 = 1) ∧
    (env.secrets_present = false → (trigger_dify_workflow env).2 = 0) := by
  obtain ⟨sp, hr⟩ := env
  cases sp <;> cases hr <;> simp [trigger_dify_workflow]

/-- Witness for C8: one POST with secrets present and a failing request,
zero POSTs with secrets missing. -/
theorem trigger_dify_workflow_one_call_w :
    (trigger_dify_workflow ⟨true, none⟩).2 = 1 ∧
    (trigger_dify_workflow ⟨false, some 200⟩).2 = 0 :=
  ⟨(trigger_dify_workflow_one_call ⟨true, none⟩).2.1 rfl,
   (trigger_dify_workflow_one_call ⟨false, some 200⟩).2.2 rfl⟩

lemma fetch_go (sid : Nat) (l : List String) :
    ∀ (db : DB) (n : Nat),
      (l.foldl (fetch_step sid) (db, n)).2 ≤ n + l.length ∧
      (l.foldl (fetch_step sid) (db, n)).1.items.length + n =
        db.items.length + (l.foldl (fetch_step sid) (db, n)).2 ∧
      ((itemHashes db).Nodup →
        (itemHashes (l.foldl (fetch_step sid) (db, n)).1).Nodup) := by
  induction l with
  | nil =>
    intro db n
    exact ⟨by simp, by simp, fun h => h⟩
  | cons link tl ih =>
    intro db n
    simp only [List.foldl_cons, List.length_cons]
    by_cases hdup :
        (db.items.filter fun r => r.url_hash == url_hash_of link).length = 0
    · have hstep : fetch_step sid (db, n) link = (add_item db sid link, n + 1) := by
        simp [fetch_step, hdup]
      rw [hstep]
      obtain ⟨h1, h2, h3⟩ := ih (add_item db sid link) (n + 1)
      have hlen : (add_item db sid link).items.length = db.items.length + 1 := by
        simp [add_item]
      refine ⟨by omega, by omega, ?_⟩
      intro hnd
      apply h3
      have hh : itemHashes (add_item db sid link) =
          itemHashes db ++ [url_hash_of link] := by
        simp [itemHashes, add_item]
      rw [hh]
      have hnotin : url_hash_of link ∉ itemHashes db := by
        intro hmem
        obtain ⟨r, hr, hrh⟩ := List.mem_map.1 hmem
        have hrf : r ∈ db.items.filter fun r => r.url_hash == url_hash_of link := by
          rw [List.mem_filter]
          exact ⟨hr, by simp [hrh]⟩
        have := List.length_pos.mpr (List.ne_nil_of_mem hrf)
        omega
      simp [List.nodup_append, hnd, hnotin]
    · have hstep : fetch_step sid (db, n) link = (db, n) := by
        simp [fetch_step, hdup]
      rw [hstep]
      obtain ⟨h1, h2, h3⟩ := ih db n
      exact ⟨by omega, h2, h3⟩

/-- C6: one Fetch Articles from RSS run looks at the 10 latest feed entries
only, inserting an entry only when no stored item carries its url hash: the
insert count is at most 10, the items table grows by exactly that count,
and distinctness of the stored url hashes is preserved. -/
theorem fetch_articles_no_dup (db : DB) (sid : Nat) (entries : List String)
    (hnd : (itemHashes db).Nodup) :
    (fetch_articles db sid entries).2 ≤ 10 ∧
    (fetch_articles db sid entries).1.items.length =
      db.items.length + (fetch_articles db sid entries).2 ∧
    (itemHashes (fetch_articles db sid entries).1).Nodup := by
  obtain ⟨h1, h2, h3⟩ := fetch_go sid (entries.take 10) db 0
  have hlen : (entries.take 10).length ≤ 10 := List.length_take_le 10 entries
  unfold fetch_articles
  exact ⟨by omega, by omega, h3 hnd⟩

/-- Witness for C6: on the empty store (whose hash list is trivially
duplicate-free) a fetch of a concrete feed inserts at most 10 items and
leaves the hash list duplicate-free. -/
theorem fetch_articles_no_dup_w :
    (itemHashes wDB2).Nodup ∧
    (fetch_articles wDB2 1 ["http://x/a", "http://x/a"]).2 ≤ 10 ∧
    (itemHashes (fetch_articles wDB2 1 ["http://x/a", "http://x/a"]).1).Nodup := by
  have h := fetch_articles_no_dup wDB2 1 ["http://x/a", "http://x/a"] (by decide)
  exact ⟨by decide, h.1, h.2.2⟩

/-- C9: `update_source_active` touches only the is_active field of the rows
whose id matches and leaves every other row and the items table unchanged;
`delete_source` removes exactly the rows whose id matches and leaves the
items table unchanged. -/
theorem source_ops_frame (db : DB) (source_id : Nat) (b : Bool) :
    (update_source_active db source_id b).items = db.items ∧
    (delete_source db source_id).items = db.items ∧
    (∀ s, s ∈ (delete_source db source_id).sources ↔
       s ∈ db.sources ∧ s.id ≠ source_id) ∧
    (∀ s ∈ db.sources,
       (s.id ≠ source_id → s ∈ (update_source_active db source_id b).sources) ∧
       (s.id = source_id →
          { s with is_active := b } ∈
            (update_source_active db source_id b).sources)) ∧
    (∀ s ∈ (update_source_active db source_id b).sources,
       s.id ≠ source_id → s ∈ db.sources) := by
  refine ⟨rfl, rfl, ?_, ?_, ?_⟩
  · intro s
    simp [delete_source, List.mem_filter, bne_iff_ne]
  · intro s hs
    constructor
    · intro hne
      exact List.mem_map.2 ⟨s, hs, by simp [hne]⟩
    · intro hid
      exact List.mem_map.2 ⟨s, hs, by simp [hid]⟩
  · intro s hs hne
    obtain ⟨x, hx, hfx⟩ := List.mem_map.1 hs
    by_cases hid : x.id = source_id
    · rw [if_pos hid] at hfx
      subst hfx
      exact absurd hid hne
    · rw [if_neg hid] at hfx
      exact hfx ▸ hx

/-- Witness for C9 on a concrete two-source store: deleting source 1 keeps
source 2, and toggling source 1 active stores its row with only is_active
changed. -/
theorem source_ops_frame_w :
    wSourceB.id ≠ 1 ∧ wSourceB ∈ (delete_source wDB2 1).sources ∧
    { wSourceA with is_active := true } ∈
      (update_source_active wDB2 1 true).sources :=
  ⟨by decide,
   ((source_ops_frame wDB2 1 true).2.2.1 wSourceB).mpr ⟨by decide, by decide⟩,
   ((source_ops_frame wDB2 1 true).2.2.2.1 wSourceA (by decide)).2 rfl⟩

/-- C10: the dashboard metrics agree with the plain counts the spec states
(PUBLISHED count, FAILED-substring count, PENDING count, active-source
count), and each metric is 0 when its table is empty (the dataframe
`safe_query` returns on an unreadable table). -/
theorem show_dashboard_metrics_correct (items : List ItemRow)
    (sources : List SourceRow) :
    show_dashboard_metrics items sources = dashboard_metrics_spec items sources ∧
    (items = [] →
       (show_dashboard_metrics items sources).1 = 0 ∧
       (show_dashboard_metrics items sources).2.1 = 0 ∧
       (show_dashboard_metrics items sources).2.2.1 = 0) ∧
    (sources = [] → (show_dashboard_metrics items sources).2.2.2 = 0) := by
  refine ⟨?_, ?_, ?_⟩
  · cases items <;> cases sources <;>
      simp [show_dashboard_metrics, dashboard_metrics_spec]
  · rintro rfl
    cases sources <;> simp [show_dashboard_metrics]
  · rintro rfl
    cases items <;> simp [show_dashboard_metrics]

/-- Witness for C10: with no items every item metric is 0, and with no
sources the active-source metric is 0, at concrete tables. -/
theorem show_dashboard_metrics_correct_w :
    (show_dashboard_metrics [] [wSourceA]).1 = 0 ∧
    (show_dashboard_metrics [wItem] []).2.2.2 = 0 :=
  ⟨((show_dashboard_metrics_correct [] [wSourceA]).2.1 rfl).1,
   (show_dashboard_metrics_correct [wItem] []).2.2 rfl⟩

end NewsAdmin
